import Mathlib

/-!
Verification development for the `keepdataflow` database-operations module
(`src/keepdataflow/archive/database_operations.py`).

The Python module is shallowly embedded: pure string manipulations become
Lean functions on `String` / `List Char`; the statement-issuing methods
(`db_insert`, `truncate_table`) become functions producing an explicit event
trace; Python truthiness on optional strings is modelled explicitly; the
regex substitution `re.sub(r'IDENTITY(\(\d+,\d+\))?', '', s)` is implemented
as a left-to-right non-overlapping scanner.
-/

/-- Embedding of `table_name_formattter` (database_operations.py lines 43-57).
Python truthiness: `if schema_name:` is false for `None` and for the empty
string, so both yield the bare table name. -/
def table_name_formattter (table_name : String) (schema_name : Option String) : String :=
  match schema_name with
  | some s => if s = "" then table_name else s ++ "." ++ table_name
  | none => table_name

/-- `true` when a Python `Optional[str]` value is truthy: present and non-empty.
Used to embed `any([source_table_name, source_query])`. -/
def strTruthy : Option String → Bool
  | none => false
  | some s => !(s == "")

/-- `startsWithChars pat l` is true when `pat` is an initial segment of `l`. -/
def startsWithChars : List Char → List Char → Bool
  | [], _ => true
  | _ :: _, [] => false
  | p :: ps, c :: cs => p == c && startsWithChars ps cs

/-- Embedding of Python `str.replace(pat, rep)` (replace every non-overlapping
occurrence, left to right) for a non-empty pattern, via a fuel argument equal
to the input length so the recursion is structural and kernel-reducible. -/
def replaceAllAux (pat rep : List Char) : Nat → List Char → List Char
  | 0, l => l
  | _ + 1, [] => []
  | fuel + 1, c :: rest =>
    if startsWithChars pat (c :: rest) then
      rep ++ replaceAllAux pat rep fuel ((c :: rest).drop pat.length)
    else
      c :: replaceAllAux pat rep fuel rest

/-- Python `s.replace(pat, rep)` for the non-empty patterns used by
`create_temp_table`. -/
def pyReplace (s pat rep : String) : String :=
  String.mk (replaceAllAux pat.data rep.data s.data.length s.data)

/-- `takeDigits l = (ds, rest)` splits off the maximal leading run of ASCII
digits, embedding the greedy `\d+` of the identity regex. -/
def takeDigits : List Char → List Char × List Char
  | [] => ([], [])
  | c :: rest =>
    if c.isDigit then
      let r := takeDigits rest
      (c :: r.1, r.2)
    else ([], c :: rest)

/-- Attempt to match the optional regex group `(\(\d+,\d+\))` — a literal
parenthesis, one or more digits, a comma, one or more digits, a closing
parenthesis — returning the remaining input on success. -/
def matchSeedIncrement : List Char → Option (List Char)
  | '(' :: rest =>
    match takeDigits rest with
    | ([], _) => none
    | (_ :: _, r1) =>
      match r1 with
      | ',' :: r2 =>
        match takeDigits r2 with
        | ([], _) => none
        | (_ :: _, r3) =>
          match r3 with
          | ')' :: r4 => some r4
          | _ => none
      | _ => none
  | _ => none

/-- Scanner for `re.sub(r'IDENTITY(\(\d+,\d+\))?', '', s)` (line 165-166):
at each position, if the literal characters `IDENTITY` start here, delete
them together with a greedy optional `(m,n)` group and continue after the
match; otherwise keep the character. The pattern has no word boundary, so it
also fires inside a longer identifier. Fuel equals the input length; every
step consumes at least one character. -/
def stripIdentityAux : Nat → List Char → List Char
  | 0, l => l
  | _ + 1, [] => []
  | fuel + 1, c :: rest =>
    if startsWithChars "IDENTITY".data (c :: rest) then
      match matchSeedIncrement ((c :: rest).drop 8) with
      | some r => stripIdentityAux fuel r
      | none => stripIdentityAux fuel ((c :: rest).drop 8)
    else
      c :: stripIdentityAux fuel rest

/-- The identity-stripping rewrite applied by `create_temp_table`. -/
def stripIdentitySub (s : String) : String :=
  String.mk (stripIdentityAux s.data.length s.data)

/-- Embedding of the `create_temp_table_headers` dict (lines 144-156), in
source order; `dict.get` becomes `List.lookup`. -/
def create_temp_table_headers : List (String × String) :=
  [("oracle", "CREATE GLOBAL TEMPORARY TABLE"),
   ("mssql", "CREATE TABLE ##"),
   ("db2", ""),
   ("postgresql", "CREATE TEMP TABLE "),
   ("mysql", "CREATE TEMPORARY TABLE "),
   ("sqlite", "CREATE TEMP TABLE "),
   ("teradata", ""),
   ("hana", ""),
   ("snowflake", ""),
   ("redshift", "CREATE TEMP TABLE "),
   ("bigquery", "")]

/-- The textual rewrite pipeline of `create_temp_table` (lines 161-166)
applied to the compiled `CREATE TABLE` DDL: strip double quotes, substitute
the dialect temp-table header for `CREATE TABLE `, strip `]` then `[`, then
delete every `IDENTITY` / `IDENTITY(m,n)` occurrence. -/
def create_temp_table_render (temp_table_header : String) (compiled_ddl : String) : String :=
  let ddl := pyReplace compiled_ddl "\"" ""
  let t1 := pyReplace ddl "CREATE TABLE " temp_table_header
  let t2 := pyReplace t1 "]" ""
  let t3 := pyReplace t2 "[" ""
  stripIdentitySub t3

/-- Result of `create_temp_table` for a given dialect and compiled DDL:
`none` models the `dict.get` miss for an unknown dialect (the subsequent
`str.replace(..., None)` would raise `TypeError`); for every known dialect,
including those mapped to the empty header, the function returns the
rewritten DDL — it raises nothing. -/
def create_temp_table_ddl (dialect : String) (compiled_ddl : String) : Option String :=
  (List.lookup dialect create_temp_table_headers).map
    (fun h => create_temp_table_render h compiled_ddl)

/-- Embedding of `insert_data_partition` (lines 170-188) at the level of its
error flow. The input is the outcome of `session.execute` on the built
INSERT; the output is `(printed lines, result visible to the caller)`: the
`except Exception` block prints `An error occurred: {e}` and falls off the
end of the function, so the caller always observes a normal `None` return. -/
def insert_data_partition_model (execute_result : Except String Unit) :
    List String × Except String Unit :=
  match execute_result with
  | Except.ok _ => ([], Except.ok ())
  | Except.error e => (["An error occurred: " ++ e], Except.ok ())

/-- Embedding of the column-resolution step of `db_merge` (lines 346-347):
`constraint_list = auto_columns if constraint_columns is None else
constraint_columns` and `match_list = primary_key_list if match_condition is
None else match_condition`, returning `(match_list, constraint_list)`. -/
def db_merge_resolve (auto_columns primary_key_list : List String)
    (match_condition constraint_columns : Option (List String)) :
    List String × List String :=
  let constraint_list :=
    match constraint_columns with
    | none => auto_columns
    | some c => c
  let match_list :=
    match match_condition with
    | none => primary_key_list
    | some m => m
  (match_list, constraint_list)

/-- Embedding of `copy_source_db` argument validation and query selection
(lines 248-283). The guard is `if not any([source_table_name, source_query])`
(Python truthiness), raising `ValueError`; otherwise the SQL text is the
query when `source_query is not None` (file-path resolution of `.sql` files
is filesystem I/O, modelled as the literal query text), else
`SELECT * FROM <formatted table>`. -/
def copy_source_db_model (source_table_name source_query source_schema_name : Option String) :
    Except String String :=
  if strTruthy source_table_name || strTruthy source_query then
    match source_query with
    | some q => Except.ok q
    | none =>
      Except.ok ("SELECT * FROM " ++
        table_name_formattter (source_table_name.getD "") source_schema_name)
  else
    Except.error "Either source_table_name or source_query must be provided."

/-- Session-level events issued by `truncate_table`. -/
inductive SessionEvent
  | acquire
  | execute (sql : String)
  | commit
  deriving DecidableEq

/-- Embedding of `truncate_table` (lines 213-217): one scoped session
(`with self.database_engine as session`), execution of
`DELETE FROM {target_table}` with the `target_table` argument interpolated
verbatim, then `session.commit()`. The `target_schema` parameter appears in
the signature but is never referenced in the body. -/
def truncate_table_events (target_table : String) (target_schema : Option String) :
    List SessionEvent :=
  [SessionEvent.acquire,
   SessionEvent.execute ("DELETE FROM " ++ target_table),
   SessionEvent.commit]

/-- A Python value passed as the `full_refresh` argument of `db_insert`:
a string or a boolean. -/
inductive PyVal
  | pstr (s : String)
  | pbool (b : Bool)
  deriving DecidableEq

/-- Python `full_refresh == 'Y'` (line 316): string comparison with `'Y'`;
comparing a boolean with a string is `False`. -/
def pyEqStrY : PyVal → Bool
  | PyVal.pstr s => s == "Y"
  | PyVal.pbool _ => false

/-- Observable events of one `db_insert` call, in program order. -/
inductive DbEvent
  | raiseValueError (msg : String)
  | partitionCall
  | truncate (table : String)
  | submitInsert (idx : Nat)
  deriving DecidableEq

/-- Embedding of the control flow of `db_insert` (lines 287-331) as an event
trace: the `self.dataframe is None` check raises first (line 308-309);
otherwise `partition_dataframe` is called (line 314), then the target is
truncated iff `full_refresh == 'Y'` (lines 316-317, with the identifier
pre-formatted by `table_name_formattter`), then the partition inserts are
submitted to the thread pool (lines 330-331). -/
def db_insert_trace (dataframe_loaded : Bool) (target_table : String)
    (target_schema : Option String) (full_refresh : PyVal) (num_partitions : Nat) :
    List DbEvent :=
  if dataframe_loaded then
    DbEvent.partitionCall ::
      ((if pyEqStrY full_refresh then
          [DbEvent.truncate (table_name_formattter target_table target_schema)]
        else []) ++ (List.range num_partitions).map DbEvent.submitInsert)
  else
    [DbEvent.raiseValueError "No DataFrame loaded."]

/-- Helper: `full_refresh == 'Y'` is true exactly for the string `"Y"`. -/
theorem pyEqStrY_eq_true_iff (fr : PyVal) : pyEqStrY fr = true ↔ fr = PyVal.pstr "Y" := by
  cases fr with
  | pstr s => simp [pyEqStrY]
  | pbool b => simp [pyEqStrY]

/-- Claim C1 (code_bug evidence): for every dialect whose temp-table header
entry is empty (db2, teradata, hana, snowflake, bigquery), `create_temp_table`
does not fail: the lookup yields the empty header and the function returns
the rewritten DDL, with the `CREATE TABLE ` header silently deleted, instead
of raising a `SchemaResolutionError`. -/
theorem create_temp_table_empty_header_no_failure :
    List.lookup "db2" create_temp_table_headers = some "" ∧
    List.lookup "teradata" create_temp_table_headers = some "" ∧
    List.lookup "hana" create_temp_table_headers = some "" ∧
    List.lookup "snowflake" create_temp_table_headers = some "" ∧
    List.lookup "bigquery" create_temp_table_headers = some "" ∧
    create_temp_table_ddl "db2" "CREATE TABLE t (id INTEGER NOT NULL)" =
      some "t (id INTEGER NOT NULL)" := by
  refine ⟨rfl, rfl, rfl, rfl, rfl, rfl⟩

/-- Claim C2 (code_bug evidence): when a partition's INSERT execution raises,
`insert_data_partition` prints `An error occurred: ...` and returns normally —
the caller observes exactly the same successful result as for a partition
whose INSERT succeeded, so no partition-level failure record is surfaced. -/
theorem insert_data_partition_swallows_failure :
    insert_data_partition_model (Except.error "boom") =
      (["An error occurred: boom"], Except.ok ()) ∧
    (insert_data_partition_model (Except.error "boom")).2 =
      (insert_data_partition_model (Except.ok ())).2 := by
  refine ⟨rfl, rfl⟩

/-- Claim C3 (code_bug evidence): the identity-stripping rewrite deletes
`IDENTITY(1,1)` and bare `IDENTITY` as claimed, but the pattern has no
whole-token boundary, so the column name `IDENTITY_COL` is NOT left
untouched: its `IDENTITY` prefix is deleted, leaving `_COL` in the rendered
temp DDL. -/
theorem identity_rewrite_mangles_identity_col :
    stripIdentitySub "IDENTITY(1,1)" = "" ∧
    stripIdentitySub "IDENTITY" = "" ∧
    stripIdentitySub "IDENTITY_COL" = "_COL" ∧
    create_temp_table_render "CREATE TEMP TABLE "
        "CREATE TABLE t (IDENTITY_COL INTEGER, n INTEGER IDENTITY(1,1))" =
      "CREATE TEMP TABLE t (_COL INTEGER, n INTEGER )" := by
  refine ⟨rfl, rfl, rfl, rfl⟩

/-- Claim C4: `db_merge` resolves the match columns to the introspected
primary-key columns and the constraint columns to the introspected auto
(non-key) columns exactly when the caller supplies none; any caller-supplied
list is used unchanged. -/
theorem db_merge_column_resolution (auto_columns primary_key_list : List String) :
    db_merge_resolve auto_columns primary_key_list none none =
      (primary_key_list, auto_columns) ∧
    (∀ m c, db_merge_resolve auto_columns primary_key_list (some m) (some c) = (m, c)) ∧
    (∀ m, db_merge_resolve auto_columns primary_key_list (some m) none = (m, auto_columns)) ∧
    (∀ c, db_merge_resolve auto_columns primary_key_list none (some c) =
      (primary_key_list, c)) := by
  refine ⟨rfl, fun m c => rfl, fun m => rfl, fun c => rfl⟩

/-- Claim C5 (counterexample): supplying BOTH `source_table_name` and
`source_query` does not fail — `copy_source_db` proceeds and the query text
is used — contradicting the claim that the call fails when both are
supplied. -/
theorem copy_source_db_both_supplied_no_error :
    copy_source_db_model (some "src_table") (some "SELECT 1") none =
      Except.ok "SELECT 1" := by
  rfl

/-- Claim C5 (amended): `copy_source_db` raises `ValueError` exactly when
neither a truthy `source_table_name` nor a truthy `source_query` is supplied,
and no extraction occurs then; whenever at least one is supplied — including
when both are — it proceeds, with `source_query` taking precedence. -/
theorem copy_source_db_requires_a_source (t q s : Option String) :
    (strTruthy t = false ∧ strTruthy q = false →
      copy_source_db_model t q s =
        Except.error "Either source_table_name or source_query must be provided.") ∧
    (strTruthy t = true ∨ strTruthy q = true →
      ∃ r, copy_source_db_model t q s = Except.ok r ∧ ∀ qs, q = some qs → r = qs) := by
  constructor
  · intro h
    unfold copy_source_db_model
    rw [h.1, h.2]
    rfl
  · intro h
    have hcond : (strTruthy t || strTruthy q) = true := by
      cases h with
      | inl h1 => rw [h1, Bool.true_or]
      | inr h1 => rw [h1, Bool.or_true]
    unfold copy_source_db_model
    rw [hcond]
    cases q with
    | none =>
      exact ⟨"SELECT * FROM " ++ table_name_formattter (t.getD "") s, rfl,
        fun qs hqs => by cases hqs⟩
    | some q0 =>
      exact ⟨q0, rfl, fun qs hqs => Option.some.inj hqs⟩

/-- Claim C5 (amended, witness): with both a table name and a query supplied,
the call succeeds and the query text is the one used. -/
theorem copy_source_db_requires_a_source_witness :
    ∃ r, copy_source_db_model (some "src_table") (some "SELECT 1") none = Except.ok r ∧
      ∀ qs, (some "SELECT 1" : Option String) = some qs → r = qs :=
  (copy_source_db_requires_a_source (some "src_table") (some "SELECT 1") none).2
    (Or.inl (by decide))

/-- Claim C6: in a full-refresh `db_insert` (dataframe loaded,
`full_refresh = 'Y'`), the truncate event occurs strictly before every
partition-insert submission in the trace. -/
theorem db_insert_truncate_precedes_inserts (tt : String) (ts : Option String)
    (n i j : Nat) (x : String) (k : Nat)
    (hi : (db_insert_trace true tt ts (PyVal.pstr "Y") n).get? i =
      some (DbEvent.truncate x))
    (hj : (db_insert_trace true tt ts (PyVal.pstr "Y") n).get? j =
      some (DbEvent.submitInsert k)) :
    i < j := by
  have htr : db_insert_trace true tt ts (PyVal.pstr "Y") n =
      DbEvent.partitionCall :: DbEvent.truncate (table_name_formattter tt ts) ::
        (List.range n).map DbEvent.submitInsert := rfl
  rw [htr] at hi hj
  match i, hi with
  | 0, hi => simp at hi
  | 1, hi =>
    match j, hj with
    | 0, hj => simp at hj
    | 1, hj => simp at hj
    | Nat.succ (Nat.succ j0), hj => omega
  | Nat.succ (Nat.succ i0), hi =>
    rw [List.get?_cons_succ, List.get?_cons_succ, List.get?_map] at hi
    cases h : (List.range n).get? i0 with
    | none => rw [h] at hi; simp at hi
    | some a => rw [h] at hi; simp at hi

/-- Claim C6 (witness): concrete full-refresh trace with one partition — the
truncate sits at index 1, the insert submission at index 2. -/
theorem db_insert_truncate_precedes_inserts_witness :
    (db_insert_trace true "t" none (PyVal.pstr "Y") 1).get? 1 =
      some (DbEvent.truncate "t") ∧
    (db_insert_trace true "t" none (PyVal.pstr "Y") 1).get? 2 =
      some (DbEvent.submitInsert 0) ∧
    (1 : Nat) < 2 :=
  ⟨rfl, rfl, db_insert_truncate_precedes_inserts "t" none 1 1 2 "t" 0 rfl rfl⟩

/-- Claim C7 (counterexample): calling `truncate_table` with table `t` and
schema `s` does not execute a statement against the fully-qualified
identifier `s.t`; the schema-qualified DELETE is absent from the session
events. -/
theorem truncate_table_schema_ignored_cex :
    SessionEvent.execute ("DELETE FROM " ++ table_name_formattter "t" (some "s")) ∉
      truncate_table_events "t" (some "s") := by
  decide

/-- Claim C7 (amended): `truncate_table` executes, inside one scoped session,
the row-delete `DELETE FROM <target_table>` with the `target_table` argument
interpolated verbatim, and commits before returning; its `target_schema`
parameter is ignored, so schema qualification is the caller's responsibility
(`db_insert` pre-formats `schema.table` before calling it). -/
theorem truncate_table_events_spec (t : String) (s : Option String) :
    truncate_table_events t s =
      [SessionEvent.acquire, SessionEvent.execute ("DELETE FROM " ++ t),
       SessionEvent.commit] := by
  rfl

/-- Claim C8: `table_name_formattter` is a total pure function (its embedding
is a total Lean function, so no side effects and no error cases) returning
`schema.table` when a (non-empty) schema is present and the bare table name
when no schema is given. -/
theorem table_name_formattter_spec (t s : String) (h : s ≠ "") :
    table_name_formattter t (some s) = s ++ "." ++ t ∧
    table_name_formattter t none = t := by
  constructor
  · show (if s = "" then t else s ++ "." ++ t) = s ++ "." ++ t
    rw [if_neg h]
  · rfl

/-- Claim C8 (witness): concrete instances of the formatter. -/
theorem table_name_formattter_spec_witness :
    table_name_formattter "orders" (some "dbo") = "dbo.orders" ∧
    table_name_formattter "orders" none = "orders" :=
  table_name_formattter_spec "orders" "dbo" (by decide)

/-- Claim C9: when no dataframe has been loaded, `db_insert` raises
`ValueError("No DataFrame loaded.")` immediately: the trace is exactly that
raise — no partitioning, no truncation and no insert submission occurs, for
every argument combination. -/
theorem db_insert_no_dataframe_raises (tt : String) (ts : Option String)
    (fr : PyVal) (n : Nat) :
    db_insert_trace false tt ts fr n =
      [DbEvent.raiseValueError "No DataFrame loaded."] := by
  rfl

/-- Claim C10: with a dataframe loaded, `db_insert` performs a truncate if
and only if `full_refresh` is exactly the string `'Y'` — in particular the
boolean `True`, the lowercase string `'y'` and the default `'N'` trigger no
truncation. -/
theorem db_insert_truncate_iff_full_refresh_Y (tt : String) (ts : Option String)
    (fr : PyVal) (n : Nat) :
    (∃ x, DbEvent.truncate x ∈ db_insert_trace true tt ts fr n) ↔
      fr = PyVal.pstr "Y" := by
  constructor
  · rintro ⟨x, hx⟩
    cases h : pyEqStrY fr with
    | true => exact (pyEqStrY_eq_true_iff fr).mp h
    | false => simp [db_insert_trace, h] at hx
  · intro h
    subst h
    refine ⟨table_name_formattter tt ts, ?_⟩
    simp [db_insert_trace, pyEqStrY]
